import Mathlib

/-!
Verification development for the vspd fee-payment service.

The definitions below are a shallow embedding of the Go sources:
the payFee handler (internal/webapi/payfee.go), the vspInfo handler
(internal/webapi/vspinfo.go) and the createDatabase / validatePubkey
functions of cmd/vspadmin/main.go.  External library calls (dcrd RPC,
WIF decoding, script derivation, transaction decoding, the database
layer) are abstracted as an explicit environment whose fields hold the
results those calls would return; the handler logic itself is translated
line by line from the source.  Side effects (RPC calls and database
writes) are recorded in an explicit trace so that claims about the
absence or order of effects can be stated.
-/

namespace Vspd

/-- Fee transaction status enumeration of the database package.  The
constructor names follow the Go constant names, including the original
spelling of FeeReceieved. -/
inductive FeeStatus
  | noFee
  | feePending
  | feeReceieved
  | feeBroadcast
  | feeConfirmed
  | feeError
  deriving DecidableEq

/-- Ticket record of the database package, restricted to the fields the
payFee handler reads or writes.  Preference maps are association lists. -/
structure Ticket where
  hash : String
  feeAddress : String
  feeAmount : Int
  feeTxHex : String
  feeTxHash : String
  feeTxStatus : FeeStatus
  votingWIF : String
  voteChoices : List (String × String)
  tSpendPolicy : List (String × String)
  treasuryPolicy : List (String × String)
  confirmed : Bool
  deriving DecidableEq

/-- Body of a POST payfee request. -/
structure PayFeeRequest where
  feeTx : String
  votingKey : String
  voteChoices : List (String × String)
  tSpendPolicy : List (String × String)
  treasuryPolicy : List (String × String)
  deriving DecidableEq

/-- One transaction output of a decoded wire message: value in atoms,
script version and raw script bytes. -/
structure TxOut where
  value : Int
  version : Nat
  pkScript : List Nat
  deriving DecidableEq

/-- Decoded wire transaction: its outputs and the string form of its hash. -/
structure MsgTx where
  txOut : List TxOut
  txHash : String
  deriving DecidableEq

/-- Result of dcrd GetRawTransaction: the raw hex of the transaction. -/
structure TxRawResult where
  hex : String
  deriving DecidableEq

/-- Decoded WIF voting key; wifString is the String() form stored as
VotingWIF. -/
structure WIF where
  wifString : String
  deriving DecidableEq

/-- Script version and raw script bytes, as returned by PaymentScript()
and VotingRightsScript(). -/
structure ScriptPair where
  scriptVersion : Nat
  script : List Nat
  deriving DecidableEq

/-- Error codes of the types package used by the handlers. -/
inductive ErrCode
  | errBadRequest
  | errInternalError
  | errUnknownTicket
  | errFeeAlreadyReceived
  | errTicketCannotVote
  | errFeeExpired
  | errInvalidPrivKey
  | errInvalidFeeTx
  | errFeeTooSmall
  | errCannotBroadcastFee
  | errCannotBroadcastFeeUnknownOutputs
  deriving DecidableEq

/-- Response sent to the client: either sendError / sendErrorWithMsg with
an error code and optional message, or the signed success response. -/
inductive Resp
  | errResp (code : ErrCode) (msg : Option String)
  | success
  deriving DecidableEq

/-- Error code carried by a response, if it is an error response. -/
def respCode : Resp → Option ErrCode
  | Resp.errResp code _ => some code
  | Resp.success => none

/-- External side effects performed by payFee, in execution order. -/
inductive Effect
  | getRawTransaction (hash : String)
  | canTicketVoteCall
  | sendRawTransaction (txHex : String)
  | updateTicket (t : Ticket)
  | saveVoteChange (hash : String)
  deriving DecidableEq

/-- Tickets passed to db.UpdateTicket, in order. -/
def writesOf (trace : List Effect) : List Ticket :=
  trace.filterMap fun e =>
    match e with
    | Effect.updateTicket t => some t
    | _ => none

/-- Raw transactions passed to dcrd.SendRawTransaction, in order. -/
def broadcastsOf (trace : List Effect) : List String :=
  trace.filterMap fun e =>
    match e with
    | Effect.sendRawTransaction h => some h
    | _ => none

/-- Ticket hashes passed to db.SaveVoteChange, in order. -/
def auditsOf (trace : List Effect) : List String :=
  trace.filterMap fun e =>
    match e with
    | Effect.saveVoteChange h => some h
    | _ => none

/-- Chain oracle calls (GetRawTransaction and canTicketVote) in the trace. -/
def oracleCallsOf (trace : List Effect) : List Effect :=
  trace.filter fun e =>
    match e with
    | Effect.getRawTransaction _ => true
    | Effect.canTicketVoteCall => true
    | _ => false

/-- Tests whether the first list is a prefix of the second, by character. -/
def isPrefixChars : List Char → List Char → Bool
  | [], _ => true
  | _ :: _, [] => false
  | a :: as, b :: bs => a = b && isPrefixChars as bs

/-- Tests whether the needle occurs as a contiguous run of the haystack. -/
def hasSubstrChars (needle : List Char) : List Char → Bool
  | [] => isPrefixChars needle []
  | c :: rest => isPrefixChars needle (c :: rest) || hasSubstrChars needle rest

/-- Embedding of Go strings.Contains: substring containment. -/
def stringContains (s substr : String) : Bool :=
  hasSubstrChars substr.toList s.toList

/-- Modelled from the spec: the marker substring rpc.ErrUnknownOutputs
that dcrd broadcast errors carry when the fee transaction references
outputs unknown to the node; the rpc package is not among the provided
sources, so only the existence of the marker is modelled and no theorem
depends on its exact value. -/
def errUnknownOutputs : String :=
  "references outputs of unknown or fully-spent transaction"

/-- Environment of one payFee request: results of all external calls the
handler makes, in the order the Go code makes them.  Function-valued
fields model calls made with request-dependent arguments.  The fields
canTicketVote, feeExpired, validVoteChoices, validTreasury and
validTSpend stand for repository helpers that are not among the provided
sources (canTicketVote, Ticket.FeeExpired, validConsensusVoteChoices,
validTreasuryPolicy, validTSpendPolicy); following the spec they are
modelled as opaque outcomes supplied by the environment. -/
structure Env where
  dcrdErr : Bool
  knownTicket : Bool
  bindErr : Bool
  bindErrMsg : String
  getRawTransaction : Except Unit TxRawResult
  canTicketVote : Except Unit Bool
  feeExpired : Bool
  decodeWIF : Option WIF
  validVoteChoices : Bool
  validTreasury : Bool
  validTSpend : Bool
  decodeTransaction : String → Option MsgTx
  checkTransactionSanity : MsgTx → Bool
  feeAddressPayment : Option ScriptPair
  votingRightsScript : Option ScriptPair
  sendRawTransaction : Except String Unit
  updateTicketOk1 : Bool
  updateTicketOk2 : Bool

/-- Outcome of one payFee request: the response sent to the client and
the trace of external effects performed. -/
structure PayFeeResult where
  resp : Resp
  trace : List Effect
  deriving DecidableEq

/-- Message text of the rejection issued when the fee transaction has no
output paying the expected fee address. -/
def msgFeeNotIncluded (feeAddress : String) : String :=
  "feetx did not include any payments for fee address " ++ feeAddress

/-- Message text of the rejection issued when the submitted voting key
does not match the voting address of the ticket. -/
def msgVotingMismatch : String :=
  "voting address does not match provided private key"

/-- Fee-output scan of payFee: walk the outputs of the fee transaction
and take the value of the first output whose script version and script
both match the expected payment script; zero when no output matches. -/
def scanFeePaid (outs : List TxOut) (wantScriptVer : Nat) (wantScript : List Nat) : Int :=
  match outs with
  | [] => 0
  | txOut :: rest =>
    if txOut.version = wantScriptVer ∧ txOut.pkScript = wantScript then txOut.value
    else scanFeePaid rest wantScriptVer wantScript

/-- Default output used to read output zero of the decoded ticket
transaction; the Go code indexes TxOut without a bounds check, so the
empty case is unreachable for real ticket transactions. -/
def txOutZero (tx : MsgTx) : TxOut :=
  tx.txOut.headD { value := 0, version := 0, pkScript := [] }

/-- Handler for POST payfee, translated from the Go source.  Every
sendError / sendErrorWithMsg / sendJSONResponse corresponds to one Resp,
and every external call appears in the trace at the position the Go code
makes it. -/
def payFee (env : Env) (ticket : Ticket) (request : PayFeeRequest) : PayFeeResult :=
  if env.dcrdErr then { resp := Resp.errResp ErrCode.errInternalError none, trace := [] }
  else if !env.knownTicket then { resp := Resp.errResp ErrCode.errUnknownTicket none, trace := [] }
  else if env.bindErr then
    { resp := Resp.errResp ErrCode.errBadRequest (Option.some env.bindErrMsg), trace := [] }
  else if ticket.feeTxStatus = FeeStatus.feeReceieved ∨
          ticket.feeTxStatus = FeeStatus.feeBroadcast ∨
          ticket.feeTxStatus = FeeStatus.feeConfirmed then
    { resp := Resp.errResp ErrCode.errFeeAlreadyReceived none, trace := [] }
  else
    let tr0 := [Effect.getRawTransaction ticket.hash]
    match env.getRawTransaction with
    | Except.error _ => { resp := Resp.errResp ErrCode.errInternalError none, trace := tr0 }
    | Except.ok rawTicket =>
      let tr1 := tr0 ++ [Effect.canTicketVoteCall]
      match env.canTicketVote with
      | Except.error _ => { resp := Resp.errResp ErrCode.errInternalError none, trace := tr1 }
      | Except.ok canVote =>
        if !canVote then
          { resp := Resp.errResp ErrCode.errTicketCannotVote none, trace := tr1 }
        else if env.feeExpired then
          { resp := Resp.errResp ErrCode.errFeeExpired none, trace := tr1 }
        else
          match env.decodeWIF with
          | none => { resp := Resp.errResp ErrCode.errInvalidPrivKey none, trace := tr1 }
          | some votingWIF =>
            let validVoteChoices := env.validVoteChoices
            let validTreasury := env.validTreasury
            let validTSpend := env.validTSpend
            match env.decodeTransaction request.feeTx with
            | none => { resp := Resp.errResp ErrCode.errInvalidFeeTx none, trace := tr1 }
            | some feeTx =>
              if !env.checkTransactionSanity feeTx then
                { resp := Resp.errResp ErrCode.errInvalidFeeTx none, trace := tr1 }
              else
                match env.feeAddressPayment with
                | none => { resp := Resp.errResp ErrCode.errInternalError none, trace := tr1 }
                | some feePS =>
                  let feePaid := scanFeePaid feeTx.txOut feePS.scriptVersion feePS.script
                  if feePaid = 0 then
                    { resp := Resp.errResp ErrCode.errInvalidFeeTx
                        (Option.some (msgFeeNotIncluded ticket.feeAddress)), trace := tr1 }
                  else if feePaid < ticket.feeAmount then
                    { resp := Resp.errResp ErrCode.errFeeTooSmall none, trace := tr1 }
                  else
                    match env.votingRightsScript with
                    | none => { resp := Resp.errResp ErrCode.errInvalidPrivKey none, trace := tr1 }
                    | some wifPS =>
                      match env.decodeTransaction rawTicket.hex with
                      | none => { resp := Resp.errResp ErrCode.errInternalError none, trace := tr1 }
                      | some ticketTx =>
                        let out0 := txOutZero ticketTx
                        if out0.version ≠ wifPS.scriptVersion ∨ out0.pkScript ≠ wifPS.script then
                          { resp := Resp.errResp ErrCode.errInvalidPrivKey
                              (Option.some msgVotingMismatch), trace := tr1 }
                        else
                          let t1 : Ticket :=
                            { ticket with
                              votingWIF := votingWIF.wifString
                              feeTxHex := request.feeTx
                              feeTxHash := feeTx.txHash
                              feeTxStatus := FeeStatus.feeReceieved
                              voteChoices :=
                                if validVoteChoices then request.voteChoices else ticket.voteChoices
                              tSpendPolicy :=
                                if validTSpend then request.tSpendPolicy else ticket.tSpendPolicy
                              treasuryPolicy :=
                                if validTreasury then request.treasuryPolicy else ticket.treasuryPolicy }
                          let tr2 := tr1 ++ [Effect.updateTicket t1]
                          if !env.updateTicketOk1 then
                            { resp := Resp.errResp ErrCode.errInternalError none, trace := tr2 }
                          else if t1.confirmed then
                            let tr3 := tr2 ++ [Effect.sendRawTransaction request.feeTx]
                            match env.sendRawTransaction with
                            | Except.error emsg =>
                              let t2 : Ticket := { t1 with feeTxStatus := FeeStatus.feeError }
                              let code :=
                                if stringContains emsg errUnknownOutputs then
                                  ErrCode.errCannotBroadcastFeeUnknownOutputs
                                else ErrCode.errCannotBroadcastFee
                              { resp := Resp.errResp code none,
                                trace := tr3 ++ [Effect.updateTicket t2] }
                            | Except.ok _ =>
                              let t2 : Ticket := { t1 with feeTxStatus := FeeStatus.feeBroadcast }
                              let tr4 := tr3 ++ [Effect.updateTicket t2]
                              if !env.updateTicketOk2 then
                                { resp := Resp.errResp ErrCode.errInternalError none, trace := tr4 }
                              else
                                { resp := Resp.success,
                                  trace := tr4 ++ [Effect.saveVoteChange t2.hash] }
                          else
                            { resp := Resp.success,
                              trace := tr2 ++ [Effect.saveVoteChange t1.hash] }

/-- Aggregate statistics snapshot held by the stats cache, as read by the
vspInfo handler. -/
structure CachedStats where
  voting : Int
  voted : Int
  expired : Int
  missed : Int
  blockHeight : Int
  networkProportion : Float
  totalVotingWallets : Int
  votingWalletsOnline : Int

/-- Response body of GET vspinfo. -/
structure VspInfoResponse where
  apiVersions : List Int
  timestamp : Int
  pubKey : List Nat
  feePercentage : Float
  network : String
  vspClosed : Bool
  vspClosedMsg : String
  vspdVersion : String
  voting : Int
  voted : Int
  totalVotingWallets : Int
  votingWalletsOnline : Int
  revoked : Int
  expired : Int
  missed : Int
  blockHeight : Int
  networkProportion : Float

/-- State of the web server read by the vspInfo handler: signing public
key, configuration fields and the current cached stats snapshot. -/
structure ServerState where
  signPubKey : List Nat
  vspFee : Float
  networkName : String
  vspClosed : Bool
  vspClosedMsg : String
  vspdVersion : String
  cachedStats : CachedStats

/-- Handler for GET vspinfo, translated from the Go source: it reads the
cached stats snapshot and builds the response field by field; the current
time is passed in explicitly. -/
def vspInfo (s : ServerState) (now : Int) : VspInfoResponse :=
  let cachedStats := s.cachedStats
  { apiVersions := [3]
    timestamp := now
    pubKey := s.signPubKey
    feePercentage := s.vspFee
    network := s.networkName
    vspClosed := s.vspClosed
    vspClosedMsg := s.vspClosedMsg
    vspdVersion := s.vspdVersion
    voting := cachedStats.voting
    voted := cachedStats.voted
    totalVotingWallets := cachedStats.totalVotingWallets
    votingWalletsOnline := cachedStats.votingWalletsOnline
    revoked := cachedStats.expired + cachedStats.missed
    expired := cachedStats.expired
    missed := cachedStats.missed
    blockHeight := cachedStats.blockHeight
    networkProportion := cachedStats.networkProportion }

/-- Extended key as parsed by hdkeychain.NewKeyFromString, restricted to
the one property vspadmin inspects. -/
structure ParsedKey where
  isPrivate : Bool
  deriving DecidableEq

/-- Network selected on the vspadmin command line. -/
structure Network where
  name : String
  deriving DecidableEq

/-- Environment of one vspadmin createDatabase invocation: the set of
existing files, the result of parsing the supplied fee extended key for
the selected network, and the outcomes of the directory and database
creation calls. -/
structure AdminEnv where
  files : List String
  newKeyFromString : Option ParsedKey
  mkdirOk : Bool
  createNewOk : Bool

/-- External side effects performed by createDatabase, in execution
order: parsing the key, creating the data directory, creating the
database file. -/
inductive AdminEffect
  | parseKey (key : String)
  | mkdirAll (dir : String)
  | createNew (file : String)
  deriving DecidableEq

/-- Name of the database file, from the dbFilename constant. -/
def dbFilename : String := "vspd.db"

/-- Path separator used by filepath.Join in the embedding. -/
def pathSep : String := "/"

/-- Data directory computed by createDatabase: homeDir/data/networkName. -/
def dataDirOf (homeDir : String) (network : Network) : String :=
  homeDir ++ pathSep ++ "data" ++ pathSep ++ network.name

/-- Database file path computed by createDatabase. -/
def dbFileOf (homeDir : String) (network : Network) : String :=
  dataDirOf homeDir network ++ pathSep ++ dbFilename

/-- Embedding of fileExists: whether the named file is among the
existing files. -/
def fileExists (files : List String) (name : String) : Bool :=
  files.contains name

/-- Embedding of validatePubkey: error when the key fails to parse for
the network, or parses to a private key; the parse result is supplied by
the environment. -/
def validatePubkey (env : AdminEnv) : Except String Unit :=
  match env.newKeyFromString with
  | none => Except.error "failed to parse feexpub"
  | some parsedKey =>
    if parsedKey.isPrivate then Except.error "feexpub is a private key, should be public"
    else Except.ok ()

/-- Embedding of createDatabase: refuse when the database file already
exists, then validate the key, then create the directory and database
file.  The second component records the external effects performed. -/
def createDatabase (env : AdminEnv) (homeDir : String) (feeXPub : String)
    (network : Network) : Except String Unit × List AdminEffect :=
  let dataDir := dataDirOf homeDir network
  let dbFile := dbFileOf homeDir network
  if fileExists env.files dbFile then
    (Except.error (network.name ++ " database already exists in " ++ dataDir), [])
  else
    match validatePubkey env with
    | Except.error e => (Except.error e, [AdminEffect.parseKey feeXPub])
    | Except.ok _ =>
      if !env.mkdirOk then
        (Except.error "failed to create data directory",
          [AdminEffect.parseKey feeXPub, AdminEffect.mkdirAll dataDir])
      else if !env.createNewOk then
        (Except.error ("error creating db file " ++ dbFile),
          [AdminEffect.parseKey feeXPub, AdminEffect.mkdirAll dataDir,
            AdminEffect.createNew dbFile])
      else
        (Except.ok (),
          [AdminEffect.parseKey feeXPub, AdminEffect.mkdirAll dataDir,
            AdminEffect.createNew dbFile])

/-- Error codes that payFee returns for client-input reasons: unknown
ticket, already paid, unvotable ticket, expired fee, malformed voting
key or voting-script mismatch, malformed or insufficient fee
transaction (which also covers the missing fee output), fee too small. -/
def isClientInputCode : ErrCode → Bool
  | ErrCode.errUnknownTicket => true
  | ErrCode.errFeeAlreadyReceived => true
  | ErrCode.errTicketCannotVote => true
  | ErrCode.errFeeExpired => true
  | ErrCode.errInvalidPrivKey => true
  | ErrCode.errInvalidFeeTx => true
  | ErrCode.errFeeTooSmall => true
  | _ => false

/-! Concrete instances used to exercise the definitions at specific
inputs: a ticket, request and environment mirroring the successful
Scenario A of the spec, together with variants used as witnesses and
counterexamples. -/

/-- Hash of the concrete test ticket. -/
def tHashA : String := "a1"

/-- Fee address of the concrete test ticket. -/
def feeAddrA : String := "Fa"

/-- Hex of the concrete fee transaction. -/
def feeHexA : String := "f1"

/-- Hex of the concrete ticket transaction. -/
def ticketHexA : String := "t1"

/-- String form of the concrete decoded voting WIF. -/
def wifStrA : String := "w1"

/-- Payment script of the concrete fee address. -/
def feeScriptA : ScriptPair := { scriptVersion := 0, script := [1, 2] }

/-- Voting-rights script derived from the concrete voting WIF. -/
def voteScriptA : ScriptPair := { scriptVersion := 0, script := [3, 4] }

/-- Concrete decoded fee transaction paying exactly 200000 atoms to the
expected fee script. -/
def feeTxA : MsgTx :=
  { txOut := [{ value := 200000, version := 0, pkScript := [1, 2] }], txHash := "h1" }

/-- Concrete decoded ticket transaction whose output zero carries the
voting-rights script matching the test WIF. -/
def ticketTxA : MsgTx :=
  { txOut := [{ value := 0, version := 0, pkScript := [3, 4] }], txHash := "h2" }

/-- Concrete ticket record: confirmed, minimum fee 200000 atoms, no fee
transaction yet. -/
def ticketA : Ticket :=
  { hash := tHashA
    feeAddress := feeAddrA
    feeAmount := 200000
    feeTxHex := ""
    feeTxHash := ""
    feeTxStatus := FeeStatus.noFee
    votingWIF := ""
    voteChoices := []
    tSpendPolicy := []
    treasuryPolicy := []
    confirmed := true }

/-- Concrete payfee request carrying the fee transaction hex, a voting
key and one vote choice. -/
def requestA : PayFeeRequest :=
  { feeTx := feeHexA
    votingKey := "k1"
    voteChoices := [("agendaX", "yes")]
    tSpendPolicy := []
    treasuryPolicy := [] }

/-- Concrete transaction decoder: decodes the fee hex and the ticket hex
to the corresponding concrete transactions. -/
def decodeTxA : String → Option MsgTx := fun s =>
  if s = feeHexA then some feeTxA
  else if s = ticketHexA then some ticketTxA
  else none

/-- Concrete environment in which every external call succeeds and every
validation passes. -/
def envA : Env :=
  { dcrdErr := false
    knownTicket := true
    bindErr := false
    bindErrMsg := ""
    getRawTransaction := Except.ok { hex := ticketHexA }
    canTicketVote := Except.ok true
    feeExpired := false
    decodeWIF := some { wifString := wifStrA }
    validVoteChoices := true
    validTreasury := true
    validTSpend := true
    decodeTransaction := decodeTxA
    checkTransactionSanity := fun _ => true
    feeAddressPayment := some feeScriptA
    votingRightsScript := some voteScriptA
    sendRawTransaction := Except.ok ()
    updateTicketOk1 := true
    updateTicketOk2 := true }

/-- Concrete fee transaction with no output paying the expected fee
script. -/
def feeTxNoMatch : MsgTx :=
  { txOut := [{ value := 500, version := 0, pkScript := [9] }], txHash := "h3" }

/-- Concrete transaction decoder mapping the fee hex to the transaction
with no matching output. -/
def decodeTxNoMatch : String → Option MsgTx := fun s =>
  if s = feeHexA then some feeTxNoMatch
  else if s = ticketHexA then some ticketTxA
  else none

/-- Voting-rights script that does not match output zero of the concrete
ticket transaction. -/
def voteScriptWrong : ScriptPair := { scriptVersion := 0, script := [5] }

/-- Concrete environment in which the submitted voting key derives a
script that does not match the ticket and the fee transaction has no
matching output. -/
def envMismatchNoFee : Env :=
  { envA with
    decodeTransaction := decodeTxNoMatch
    votingRightsScript := some voteScriptWrong }

/-- Concrete fee transaction whose first matching output has value zero
while a later matching output pays more than the minimum fee. -/
def feeTxZeroFirst : MsgTx :=
  { txOut :=
      [{ value := 0, version := 0, pkScript := [1, 2] },
        { value := 300000, version := 0, pkScript := [1, 2] }]
    txHash := "h4" }

/-- Concrete transaction decoder mapping the fee hex to the transaction
whose first matching output has value zero. -/
def decodeTxZeroFirst : String → Option MsgTx := fun s =>
  if s = feeHexA then some feeTxZeroFirst
  else if s = ticketHexA then some ticketTxA
  else none

/-- Concrete environment for the zero-value first matching output. -/
def envZeroFirst : Env := { envA with decodeTransaction := decodeTxZeroFirst }

/-- Concrete fee transaction paying one atom less than the minimum fee. -/
def feeTxOneLess : MsgTx :=
  { txOut := [{ value := 199999, version := 0, pkScript := [1, 2] }], txHash := "h5" }

/-- Concrete transaction decoder mapping the fee hex to the transaction
paying one atom less than the minimum fee. -/
def decodeTxOneLess : String → Option MsgTx := fun s =>
  if s = feeHexA then some feeTxOneLess
  else if s = ticketHexA then some ticketTxA
  else none

/-- Concrete environment for the one-atom-short fee payment. -/
def envOneLess : Env := { envA with decodeTransaction := decodeTxOneLess }

/-- Concrete environment in which the vote-choice map fails validation. -/
def envBadChoices : Env := { envA with validVoteChoices := false }

/-- Concrete broadcast error message carrying the unknown-outputs
marker. -/
def emsgUnknown : String := "tx rejected: " ++ errUnknownOutputs

/-- Concrete environment in which broadcasting the fee transaction fails
with an unknown-outputs class error. -/
def envBroadcastFail : Env :=
  { envA with sendRawTransaction := Except.error emsgUnknown }

/-- Concrete server state for the vspinfo handler. -/
def serverA : ServerState :=
  { signPubKey := [7, 7]
    vspFee := 3.0
    networkName := "testnet"
    vspClosed := false
    vspClosedMsg := ""
    vspdVersion := "1.0"
    cachedStats :=
      { voting := 10
        voted := 20
        expired := 3
        missed := 4
        blockHeight := 1000
        networkProportion := 0.5
        totalVotingWallets := 3
        votingWalletsOnline := 2 } }

/-- Concrete network for the vspadmin model. -/
def networkT : Network := { name := "testnet" }

/-- Concrete home directory for the vspadmin model. -/
def homeDirA : String := "home"

/-- Concrete fee xpub string for the vspadmin model. -/
def feeXPubA : String := "xpub1"

/-- Concrete vspadmin environment in which the database file already
exists. -/
def adminEnvExisting : AdminEnv :=
  { files := [dbFileOf homeDirA networkT]
    newKeyFromString := some { isPrivate := false }
    mkdirOk := true
    createNewOk := true }

/-- Concrete vspadmin environment in which no database exists but the
supplied key parses to a private key. -/
def adminEnvPrivate : AdminEnv :=
  { files := []
    newKeyFromString := some { isPrivate := true }
    mkdirOk := true
    createNewOk := true }

/-! Theorems. -/

/-- Claim C8: for every cached stats snapshot, the vspinfo response's
Revoked field equals the sum of the snapshot's Expired and Missed
counts, and its Voting, Voted, Expired, Missed, BlockHeight,
NetworkProportion, TotalVotingWallets and VotingWalletsOnline fields
equal the corresponding snapshot fields unchanged. -/
theorem vspInfo_cached_stats_fields (s : ServerState) (now : Int) :
    (vspInfo s now).revoked = s.cachedStats.expired + s.cachedStats.missed ∧
    (vspInfo s now).voting = s.cachedStats.voting ∧
    (vspInfo s now).voted = s.cachedStats.voted ∧
    (vspInfo s now).expired = s.cachedStats.expired ∧
    (vspInfo s now).missed = s.cachedStats.missed ∧
    (vspInfo s now).blockHeight = s.cachedStats.blockHeight ∧
    (vspInfo s now).networkProportion = s.cachedStats.networkProportion ∧
    (vspInfo s now).totalVotingWallets = s.cachedStats.totalVotingWallets ∧
    (vspInfo s now).votingWalletsOnline = s.cachedStats.votingWalletsOnline :=
  ⟨rfl, rfl, rfl, rfl, rfl, rfl, rfl, rfl, rfl⟩

/-- Claim C1: for every ticket whose fee status is Received, Broadcast
or Confirmed, a payFee request (known ticket, well-formed body, dcrd
reachable) is rejected with the already-received error and the trace of
external effects is empty: no oracle call, no ledger write and no
broadcast happen. -/
theorem payFee_already_received_rejected_early (env : Env) (t : Ticket) (r : PayFeeRequest)
    (hdcrd : env.dcrdErr = false) (hknown : env.knownTicket = true) (hbind : env.bindErr = false)
    (hstatus : t.feeTxStatus = FeeStatus.feeReceieved ∨ t.feeTxStatus = FeeStatus.feeBroadcast ∨
      t.feeTxStatus = FeeStatus.feeConfirmed) :
    payFee env t r = { resp := Resp.errResp ErrCode.errFeeAlreadyReceived none, trace := [] } := by
  simp [payFee, hdcrd, hknown, hbind, hstatus]

/-- Witness for claim C1 at a concrete already-received ticket. -/
theorem payFee_already_received_rejected_early_witness :
    payFee envA { ticketA with feeTxStatus := FeeStatus.feeReceieved } requestA =
      { resp := Resp.errResp ErrCode.errFeeAlreadyReceived none, trace := [] } :=
  payFee_already_received_rejected_early envA
    { ticketA with feeTxStatus := FeeStatus.feeReceieved } requestA rfl rfl rfl (Or.inl rfl)

/-- Claim C9: createDatabase returns an error with no key validation and
no file-creating effect when the database file for the selected network
already exists under the home directory, and otherwise returns an error
whenever the supplied fee extended key fails to parse for the network or
parses to a private key, in which case the only effect performed is the
parse itself. -/
theorem createDatabase_rejects_existing_and_bad_key (env : AdminEnv)
    (homeDir feeXPub : String) (network : Network) :
    (fileExists env.files (dbFileOf homeDir network) = true →
      createDatabase env homeDir feeXPub network =
        (Except.error (network.name ++ " database already exists in " ++
          dataDirOf homeDir network), [])) ∧
    (fileExists env.files (dbFileOf homeDir network) = false →
      (env.newKeyFromString = none ∨
        ∃ k, env.newKeyFromString = some k ∧ k.isPrivate = true) →
      ∃ e, (createDatabase env homeDir feeXPub network).1 = Except.error e ∧
        (createDatabase env homeDir feeXPub network).2 = [AdminEffect.parseKey feeXPub]) := by
  constructor
  · intro hex
    simp [createDatabase, hex]
  · intro hex hbad
    rcases hbad with hnone | ⟨k, hk, hpriv⟩
    · simp [createDatabase, hex, validatePubkey, hnone]
    · simp [createDatabase, hex, validatePubkey, hk, hpriv]

/-- Witness for claim C9 at a concrete existing database and a concrete
private key. -/
theorem createDatabase_rejects_existing_and_bad_key_witness :
    createDatabase adminEnvExisting homeDirA feeXPubA networkT =
      (Except.error (networkT.name ++ " database already exists in " ++
        dataDirOf homeDirA networkT), []) ∧
    (∃ e, (createDatabase adminEnvPrivate homeDirA feeXPubA networkT).1 = Except.error e ∧
      (createDatabase adminEnvPrivate homeDirA feeXPubA networkT).2 =
        [AdminEffect.parseKey feeXPubA]) :=
  ⟨(createDatabase_rejects_existing_and_bad_key adminEnvExisting homeDirA feeXPubA networkT).1
      (by decide),
    (createDatabase_rejects_existing_and_bad_key adminEnvPrivate homeDirA feeXPubA networkT).2
      (by decide) (Or.inr ⟨{ isPrivate := true }, rfl, rfl⟩)⟩

/-- Helper: the fee-output scan returns the value of the first matching
output, independent of any outputs after it. -/
theorem scanFeePaid_first_match (ver : Nat) (s : List Nat) (o : TxOut) (post : List TxOut) :
    ∀ pre : List TxOut, (∀ x ∈ pre, ¬(x.version = ver ∧ x.pkScript = s)) →
    (o.version = ver ∧ o.pkScript = s) →
    scanFeePaid (pre ++ o :: post) ver s = o.value := by
  intro pre
  induction pre with
  | nil =>
    intro _ ho
    simp [scanFeePaid, ho]
  | cons x xs ih =>
    intro hpre ho
    have hx : ¬(x.version = ver ∧ x.pkScript = s) := hpre x (List.mem_cons_self x xs)
    simp only [List.cons_append, scanFeePaid, if_neg hx]
    exact ih (fun y hy => hpre y (List.mem_cons_of_mem x hy)) ho

/-- Claim C3: when a payFee request reaches the fee-output scan and the
scan finds a nonzero payment, a payment greater than or equal to the
ticket's FeeAmount (in particular exactly equal) passes the fee checks
and validation proceeds (the response is neither the fee-too-small nor
any invalid-fee-tx rejection), while a payment strictly smaller (in
particular one atom less) is rejected with the fee-too-small error. -/
theorem payFee_fee_amount_boundary (env : Env) (t : Ticket) (r : PayFeeRequest)
    (raw : TxRawResult) (w : WIF) (ftx : MsgTx) (feePS : ScriptPair)
    (hdcrd : env.dcrdErr = false) (hknown : env.knownTicket = true) (hbind : env.bindErr = false)
    (hstatus : ¬(t.feeTxStatus = FeeStatus.feeReceieved ∨
      t.feeTxStatus = FeeStatus.feeBroadcast ∨ t.feeTxStatus = FeeStatus.feeConfirmed))
    (hraw : env.getRawTransaction = Except.ok raw)
    (hvote : env.canTicketVote = Except.ok true)
    (hexp : env.feeExpired = false)
    (hwif : env.decodeWIF = some w)
    (hft : env.decodeTransaction r.feeTx = some ftx)
    (hsan : env.checkTransactionSanity ftx = true)
    (haddr : env.feeAddressPayment = some feePS)
    (hv0 : scanFeePaid ftx.txOut feePS.scriptVersion feePS.script ≠ 0) :
    (t.feeAmount ≤ scanFeePaid ftx.txOut feePS.scriptVersion feePS.script →
      respCode (payFee env t r).resp ≠ some ErrCode.errFeeTooSmall ∧
      respCode (payFee env t r).resp ≠ some ErrCode.errInvalidFeeTx) ∧
    (scanFeePaid ftx.txOut feePS.scriptVersion feePS.script < t.feeAmount →
      (payFee env t r).resp = Resp.errResp ErrCode.errFeeTooSmall none) := by
  constructor
  · intro hge
    have hlt : ¬(scanFeePaid ftx.txOut feePS.scriptVersion feePS.script < t.feeAmount) :=
      not_lt.mpr hge
    simp only [payFee, hdcrd, hknown, hbind, hraw, hvote, hexp, hwif, hft, hsan, haddr]
    simp only [hstatus, hv0, hlt]
    simp only [Bool.false_eq_true, if_false, Bool.not_true, Bool.not_false, if_true,
      ite_false, ite_true, if_neg hstatus, if_neg hv0, if_neg hlt]
    repeat' split
    all_goals simp [respCode]
  · intro hlt
    simp [payFee, hdcrd, hknown, hbind, hstatus, hraw, hvote, hexp, hwif, hft, hsan, haddr,
      hv0, hlt]

/-- Witness for claim C3: with the minimum fee 200000 an exact payment
of 200000 atoms passes the fee checks, and a payment of 199999 atoms is
rejected as too small. -/
theorem payFee_fee_amount_boundary_witness :
    (respCode (payFee envA ticketA requestA).resp ≠ some ErrCode.errFeeTooSmall ∧
      respCode (payFee envA ticketA requestA).resp ≠ some ErrCode.errInvalidFeeTx) ∧
    (payFee envOneLess ticketA requestA).resp = Resp.errResp ErrCode.errFeeTooSmall none :=
  ⟨(payFee_fee_amount_boundary envA ticketA requestA { hex := ticketHexA }
      { wifString := wifStrA } feeTxA feeScriptA rfl rfl rfl (by decide) rfl rfl rfl rfl
      (by decide) rfl rfl (by decide)).1 (by decide),
    (payFee_fee_amount_boundary envOneLess ticketA requestA { hex := ticketHexA }
      { wifString := wifStrA } feeTxOneLess feeScriptA rfl rfl rfl (by decide) rfl rfl rfl rfl
      (by decide) rfl rfl (by decide)).2 (by decide)⟩

/-- Claim C10: the fee paid is the value of the first output of the fee
transaction whose script and version match the expected payment script,
never a sum over several matching outputs, and a first matching output
of value zero is treated as absence of payment: the request is rejected
with the message naming the fee address rather than with the
fee-too-small error. -/
theorem payFee_first_matching_output (env : Env) (t : Ticket) (r : PayFeeRequest)
    (raw : TxRawResult) (w : WIF) (ftx : MsgTx) (feePS : ScriptPair)
    (pre : List TxOut) (o : TxOut) (post : List TxOut)
    (hdcrd : env.dcrdErr = false) (hknown : env.knownTicket = true) (hbind : env.bindErr = false)
    (hstatus : ¬(t.feeTxStatus = FeeStatus.feeReceieved ∨
      t.feeTxStatus = FeeStatus.feeBroadcast ∨ t.feeTxStatus = FeeStatus.feeConfirmed))
    (hraw : env.getRawTransaction = Except.ok raw)
    (hvote : env.canTicketVote = Except.ok true)
    (hexp : env.feeExpired = false)
    (hwif : env.decodeWIF = some w)
    (hft : env.decodeTransaction r.feeTx = some ftx)
    (hsan : env.checkTransactionSanity ftx = true)
    (haddr : env.feeAddressPayment = some feePS)
    (hsplit : ftx.txOut = pre ++ o :: post)
    (hpre : ∀ x ∈ pre, ¬(x.version = feePS.scriptVersion ∧ x.pkScript = feePS.script))
    (ho : o.version = feePS.scriptVersion ∧ o.pkScript = feePS.script) :
    scanFeePaid ftx.txOut feePS.scriptVersion feePS.script = o.value ∧
    (o.value = 0 →
      (payFee env t r).resp =
        Resp.errResp ErrCode.errInvalidFeeTx (Option.some (msgFeeNotIncluded t.feeAddress))) := by
  have hscan : scanFeePaid ftx.txOut feePS.scriptVersion feePS.script = o.value := by
    rw [hsplit]
    exact scanFeePaid_first_match feePS.scriptVersion feePS.script o post pre hpre ho
  refine ⟨hscan, fun hz => ?_⟩
  simp [payFee, hdcrd, hknown, hbind, hstatus, hraw, hvote, hexp, hwif, hft, hsan, haddr,
    hscan, hz]

/-- Witness for claim C10: a fee transaction whose first matching output
has value zero is rejected with the message naming the fee address, even
though a later matching output pays well above the minimum. -/
theorem payFee_first_matching_output_witness :
    scanFeePaid feeTxZeroFirst.txOut feeScriptA.scriptVersion feeScriptA.script = 0 ∧
    (payFee envZeroFirst ticketA requestA).resp =
      Resp.errResp ErrCode.errInvalidFeeTx (Option.some (msgFeeNotIncluded ticketA.feeAddress)) := by
  have h := payFee_first_matching_output envZeroFirst ticketA requestA { hex := ticketHexA }
    { wifString := wifStrA } feeTxZeroFirst feeScriptA
    [] { value := 0, version := 0, pkScript := [1, 2] }
    [{ value := 300000, version := 0, pkScript := [1, 2] }]
    rfl rfl rfl (by decide) rfl rfl rfl rfl (by decide) rfl rfl rfl
    (by intro x hx; simp at hx) (by constructor <;> rfl)
  exact ⟨h.1, h.2 rfl⟩

/-- Claim C5: when a payFee request that passes every fatal check has
one or more invalid preference maps, the request still succeeds, and the
first persisted record sets VotingWIF, the FeeTx fields and the Received
status while each invalid submitted map is omitted (the record keeps the
ticket's previous value for it) and each valid submitted map is
persisted. -/
theorem payFee_invalid_maps_nonfatal (env : Env) (t : Ticket) (r : PayFeeRequest)
    (raw : TxRawResult) (w : WIF) (ftx : MsgTx) (feePS : ScriptPair) (wps : ScriptPair)
    (ttx : MsgTx)
    (hdcrd : env.dcrdErr = false) (hknown : env.knownTicket = true) (hbind : env.bindErr = false)
    (hstatus : ¬(t.feeTxStatus = FeeStatus.feeReceieved ∨
      t.feeTxStatus = FeeStatus.feeBroadcast ∨ t.feeTxStatus = FeeStatus.feeConfirmed))
    (hraw : env.getRawTransaction = Except.ok raw)
    (hvote : env.canTicketVote = Except.ok true)
    (hexp : env.feeExpired = false)
    (hwif : env.decodeWIF = some w)
    (hft : env.decodeTransaction r.feeTx = some ftx)
    (hsan : env.checkTransactionSanity ftx = true)
    (haddr : env.feeAddressPayment = some feePS)
    (hv0 : scanFeePaid ftx.txOut feePS.scriptVersion feePS.script ≠ 0)
    (hge : ¬(scanFeePaid ftx.txOut feePS.scriptVersion feePS.script < t.feeAmount))
    (hvr : env.votingRightsScript = some wps)
    (httx : env.decodeTransaction raw.hex = some ttx)
    (hmatch : (txOutZero ttx).version = wps.scriptVersion ∧
      (txOutZero ttx).pkScript = wps.script)
    (hupd1 : env.updateTicketOk1 = true)
    (hbroadcast : t.confirmed = false ∨
      (env.sendRawTransaction = Except.ok () ∧ env.updateTicketOk2 = true))
    (_hinv : env.validVoteChoices = false ∨ env.validTreasury = false ∨
      env.validTSpend = false) :
    (payFee env t r).resp = Resp.success ∧
    (writesOf (payFee env t r).trace).head? = some
      { t with
        votingWIF := w.wifString
        feeTxHex := r.feeTx
        feeTxHash := ftx.txHash
        feeTxStatus := FeeStatus.feeReceieved
        voteChoices := if env.validVoteChoices then r.voteChoices else t.voteChoices
        tSpendPolicy := if env.validTSpend then r.tSpendPolicy else t.tSpendPolicy
        treasuryPolicy := if env.validTreasury then r.treasuryPolicy else t.treasuryPolicy } := by
  have hnm : ¬((txOutZero ttx).version ≠ wps.scriptVersion ∨
      (txOutZero ttx).pkScript ≠ wps.script) := by
    simp [hmatch.1, hmatch.2]
  rcases hbroadcast with hconf | ⟨hsend, hupd2⟩
  · constructor <;>
      simp [payFee, hdcrd, hknown, hbind, hstatus, hraw, hvote, hexp, hwif, hft, hsan, haddr,
        hv0, hge, hvr, httx, hnm, hupd1, hconf, writesOf]
  · cases hconf : t.confirmed
    · constructor <;>
        simp [payFee, hdcrd, hknown, hbind, hstatus, hraw, hvote, hexp, hwif, hft, hsan, haddr,
          hv0, hge, hvr, httx, hnm, hupd1, hconf, writesOf]
    · constructor <;>
        simp [payFee, hdcrd, hknown, hbind, hstatus, hraw, hvote, hexp, hwif, hft, hsan, haddr,
          hv0, hge, hvr, httx, hnm, hupd1, hconf, hsend, hupd2, writesOf]

/-- Witness for claim C5: with an invalid vote-choice map and all other
checks passing, the request succeeds and the persisted record keeps the
previous (empty) vote choices while registering the voting key and fee
transaction. -/
theorem payFee_invalid_maps_nonfatal_witness :
    (payFee envBadChoices ticketA requestA).resp = Resp.success ∧
    (writesOf (payFee envBadChoices ticketA requestA).trace).head? = some
      { ticketA with
        votingWIF := wifStrA
        feeTxHex := requestA.feeTx
        feeTxHash := feeTxA.txHash
        feeTxStatus := FeeStatus.feeReceieved
        voteChoices := if envBadChoices.validVoteChoices then requestA.voteChoices
          else ticketA.voteChoices
        tSpendPolicy := if envBadChoices.validTSpend then requestA.tSpendPolicy
          else ticketA.tSpendPolicy
        treasuryPolicy := if envBadChoices.validTreasury then requestA.treasuryPolicy
          else ticketA.treasuryPolicy } :=
  payFee_invalid_maps_nonfatal envBadChoices ticketA requestA { hex := ticketHexA }
    { wifString := wifStrA } feeTxA feeScriptA voteScriptA ticketTxA
    rfl rfl rfl (by decide) rfl rfl rfl rfl (by decide) rfl rfl (by decide) (by decide)
    rfl (by decide) (by decide) rfl (Or.inr ⟨rfl, rfl⟩) (Or.inl rfl)

/-- Claim C6: once a valid payFee request has been persisted, the fee
transaction is broadcast exactly when the ticket is chain-confirmed; on
broadcast failure the last persisted record carries the Error status and
the client receives the unknown-outputs code exactly when the error
message contains the unknown-outputs marker and the generic broadcast
code otherwise; on broadcast success the last persisted record carries
the Broadcast status and the response is the success response. -/
theorem payFee_broadcast_iff_confirmed (env : Env) (t : Ticket) (r : PayFeeRequest)
    (raw : TxRawResult) (w : WIF) (ftx : MsgTx) (feePS : ScriptPair) (wps : ScriptPair)
    (ttx : MsgTx)
    (hdcrd : env.dcrdErr = false) (hknown : env.knownTicket = true) (hbind : env.bindErr = false)
    (hstatus : ¬(t.feeTxStatus = FeeStatus.feeReceieved ∨
      t.feeTxStatus = FeeStatus.feeBroadcast ∨ t.feeTxStatus = FeeStatus.feeConfirmed))
    (hraw : env.getRawTransaction = Except.ok raw)
    (hvote : env.canTicketVote = Except.ok true)
    (hexp : env.feeExpired = false)
    (hwif : env.decodeWIF = some w)
    (hft : env.decodeTransaction r.feeTx = some ftx)
    (hsan : env.checkTransactionSanity ftx = true)
    (haddr : env.feeAddressPayment = some feePS)
    (hv0 : scanFeePaid ftx.txOut feePS.scriptVersion feePS.script ≠ 0)
    (hge : ¬(scanFeePaid ftx.txOut feePS.scriptVersion feePS.script < t.feeAmount))
    (hvr : env.votingRightsScript = some wps)
    (httx : env.decodeTransaction raw.hex = some ttx)
    (hmatch : (txOutZero ttx).version = wps.scriptVersion ∧
      (txOutZero ttx).pkScript = wps.script)
    (hupd1 : env.updateTicketOk1 = true) :
    broadcastsOf (payFee env t r).trace = (if t.confirmed then [r.feeTx] else []) ∧
    (∀ emsg, t.confirmed = true → env.sendRawTransaction = Except.error emsg →
      ((writesOf (payFee env t r).trace).getLast?).map Ticket.feeTxStatus =
        some FeeStatus.feeError ∧
      (payFee env t r).resp = Resp.errResp
        (if stringContains emsg errUnknownOutputs then
          ErrCode.errCannotBroadcastFeeUnknownOutputs
        else ErrCode.errCannotBroadcastFee) none) ∧
    (t.confirmed = true → env.sendRawTransaction = Except.ok () →
      ((writesOf (payFee env t r).trace).getLast?).map Ticket.feeTxStatus =
        some FeeStatus.feeBroadcast ∧
      (env.updateTicketOk2 = true → (payFee env t r).resp = Resp.success)) := by
  have hnm : ¬((txOutZero ttx).version ≠ wps.scriptVersion ∨
      (txOutZero ttx).pkScript ≠ wps.script) := by
    simp [hmatch.1, hmatch.2]
  refine ⟨?_, fun emsg hconf hsend => ?_, fun hconf hsend => ?_⟩
  · cases hconf : t.confirmed
    · simp [payFee, hdcrd, hknown, hbind, hstatus, hraw, hvote, hexp, hwif, hft, hsan, haddr,
        hv0, hge, hvr, httx, hnm, hupd1, hconf, broadcastsOf]
    · cases hsend : env.sendRawTransaction with
      | error emsg =>
        simp [payFee, hdcrd, hknown, hbind, hstatus, hraw, hvote, hexp, hwif, hft, hsan,
          haddr, hv0, hge, hvr, httx, hnm, hupd1, hconf, hsend, broadcastsOf]
      | ok u =>
        cases hupd2 : env.updateTicketOk2 <;>
          simp [payFee, hdcrd, hknown, hbind, hstatus, hraw, hvote, hexp, hwif, hft, hsan,
            haddr, hv0, hge, hvr, httx, hnm, hupd1, hconf, hsend, hupd2, broadcastsOf]
  · constructor <;>
      simp [payFee, hdcrd, hknown, hbind, hstatus, hraw, hvote, hexp, hwif, hft, hsan, haddr,
        hv0, hge, hvr, httx, hnm, hupd1, hconf, hsend, writesOf]
  · refine ⟨?_, fun hupd2 => ?_⟩
    · cases hupd2 : env.updateTicketOk2 <;>
        simp [payFee, hdcrd, hknown, hbind, hstatus, hraw, hvote, hexp, hwif, hft, hsan, haddr,
          hv0, hge, hvr, httx, hnm, hupd1, hconf, hsend, hupd2, writesOf]
    · simp [payFee, hdcrd, hknown, hbind, hstatus, hraw, hvote, hexp, hwif, hft, hsan, haddr,
        hv0, hge, hvr, httx, hnm, hupd1, hconf, hsend, hupd2, writesOf]

/-- Witness for claim C6: with the concrete confirmed ticket, the fee
transaction is broadcast; when dcrd rejects it with an unknown-outputs
class error the persisted status is Error and the response carries the
unknown-outputs code, and when broadcast succeeds the persisted status
is Broadcast and the response is the success response. -/
theorem payFee_broadcast_iff_confirmed_witness :
    broadcastsOf (payFee envA ticketA requestA).trace = [requestA.feeTx] ∧
    ((writesOf (payFee envBroadcastFail ticketA requestA).trace).getLast?).map
      Ticket.feeTxStatus = some FeeStatus.feeError ∧
    (payFee envBroadcastFail ticketA requestA).resp =
      Resp.errResp ErrCode.errCannotBroadcastFeeUnknownOutputs none ∧
    ((writesOf (payFee envA ticketA requestA).trace).getLast?).map Ticket.feeTxStatus =
      some FeeStatus.feeBroadcast ∧
    (payFee envA ticketA requestA).resp = Resp.success := by
  have hA := payFee_broadcast_iff_confirmed envA ticketA requestA { hex := ticketHexA }
    { wifString := wifStrA } feeTxA feeScriptA voteScriptA ticketTxA
    rfl rfl rfl (by decide) rfl rfl rfl rfl (by decide) rfl rfl (by decide) (by decide)
    rfl (by decide) (by decide) rfl
  have hB := payFee_broadcast_iff_confirmed envBroadcastFail ticketA requestA
    { hex := ticketHexA } { wifString := wifStrA } feeTxA feeScriptA voteScriptA ticketTxA
    rfl rfl rfl (by decide) rfl rfl rfl rfl (by decide) rfl rfl (by decide) (by decide)
    rfl (by decide) (by decide) rfl
  have hcontains : stringContains emsgUnknown errUnknownOutputs = true := by decide
  refine ⟨by simpa using hA.1, (hB.2.1 emsgUnknown rfl rfl).1, ?_, (hA.2.2 rfl rfl).1,
    (hA.2.2 rfl rfl).2 rfl⟩
  have h2 := (hB.2.1 emsgUnknown rfl rfl).2
  simpa [hcontains] using h2

/-- Counterexample to claim C2 as stated: a request whose voting key
decodes successfully and whose derived voting-rights script differs from
output zero of the ticket transaction, but whose fee transaction also
lacks a matching fee output, is rejected with the invalid-fee-tx error,
not with the invalid-private-key error the claim requires for every such
request regardless of fee correctness. -/
theorem payFee_binding_mismatch_counterexample :
    envMismatchNoFee.decodeWIF = some { wifString := wifStrA } ∧
    envMismatchNoFee.votingRightsScript = some voteScriptWrong ∧
    envMismatchNoFee.getRawTransaction = Except.ok { hex := ticketHexA } ∧
    envMismatchNoFee.decodeTransaction ticketHexA = some ticketTxA ∧
    (txOutZero ticketTxA).pkScript ≠ voteScriptWrong.script ∧
    respCode (payFee envMismatchNoFee ticketA requestA).resp = some ErrCode.errInvalidFeeTx ∧
    ErrCode.errInvalidFeeTx ≠ ErrCode.errInvalidPrivKey :=
  ⟨rfl, rfl, rfl, by decide, by decide, by decide, by decide⟩

/-- Claim C2 (amended): when the voting key decodes successfully but the
derived voting-rights script or script version differs from output zero
of the ticket transaction, the request is always rejected with some
error and no ledger write occurs; the rejection carries the
invalid-private-key error whenever the fee output and fee amount checks
pass. -/
theorem payFee_binding_mismatch_rejected (env : Env) (t : Ticket) (r : PayFeeRequest)
    (raw : TxRawResult) (wps : ScriptPair) (ttx : MsgTx)
    (hdcrd : env.dcrdErr = false) (hknown : env.knownTicket = true) (hbind : env.bindErr = false)
    (hstatus : ¬(t.feeTxStatus = FeeStatus.feeReceieved ∨
      t.feeTxStatus = FeeStatus.feeBroadcast ∨ t.feeTxStatus = FeeStatus.feeConfirmed))
    (hraw : env.getRawTransaction = Except.ok raw)
    (hvote : env.canTicketVote = Except.ok true)
    (hexp : env.feeExpired = false)
    (hwif : ∃ w, env.decodeWIF = some w)
    (hvr : env.votingRightsScript = some wps)
    (httx : env.decodeTransaction raw.hex = some ttx)
    (hmm : (txOutZero ttx).version ≠ wps.scriptVersion ∨
      (txOutZero ttx).pkScript ≠ wps.script) :
    (∃ c m, (payFee env t r).resp = Resp.errResp c m) ∧
    writesOf (payFee env t r).trace = [] ∧
    (∀ ftx feePS, env.decodeTransaction r.feeTx = some ftx →
      env.checkTransactionSanity ftx = true →
      env.feeAddressPayment = some feePS →
      scanFeePaid ftx.txOut feePS.scriptVersion feePS.script ≠ 0 →
      ¬(scanFeePaid ftx.txOut feePS.scriptVersion feePS.script < t.feeAmount) →
      (payFee env t r).resp =
        Resp.errResp ErrCode.errInvalidPrivKey (Option.some msgVotingMismatch)) := by
  obtain ⟨w, hw⟩ := hwif
  refine ⟨?_, ?_, ?_⟩
  · simp only [payFee]
    simp [hdcrd, hknown, hbind, hstatus, hraw, hvote, hexp, hw, hvr, httx, hmm]
    repeat' split
    all_goals exact ⟨_, _, rfl⟩
  · simp only [payFee]
    simp [hdcrd, hknown, hbind, hstatus, hraw, hvote, hexp, hw, hvr, httx, hmm]
    repeat' split
    all_goals simp [writesOf]
  · intro ftx feePS hft hsan haddr hv0 hge
    simp [payFee, hdcrd, hknown, hbind, hstatus, hraw, hvote, hexp, hw, hft, hsan, haddr,
      hv0, hge, hvr, httx, hmm]

/-- Witness for claim C2 (amended) at a concrete mismatching voting key
whose fee transaction pays the correct amount: the response is the
invalid-private-key rejection and no ledger write occurs. -/
theorem payFee_binding_mismatch_rejected_witness :
    (∃ c m, (payFee { envA with votingRightsScript := some voteScriptWrong }
      ticketA requestA).resp = Resp.errResp c m) ∧
    writesOf (payFee { envA with votingRightsScript := some voteScriptWrong }
      ticketA requestA).trace = [] ∧
    (payFee { envA with votingRightsScript := some voteScriptWrong } ticketA requestA).resp =
      Resp.errResp ErrCode.errInvalidPrivKey (Option.some msgVotingMismatch) := by
  have h := payFee_binding_mismatch_rejected
    { envA with votingRightsScript := some voteScriptWrong } ticketA requestA
    { hex := ticketHexA } voteScriptWrong ticketTxA
    rfl rfl rfl (by decide) rfl rfl rfl ⟨{ wifString := wifStrA }, rfl⟩ rfl (by decide)
    (by decide)
  exact ⟨h.1, h.2.1, h.2.2 feeTxA feeScriptA (by decide) rfl rfl (by decide) (by decide)⟩

/-- Helper: exhaustive shape analysis of one payFee run.  Either nothing
was written (all rejection paths before persistence), or exactly one
record with status Received was written and the response is success or
an internal error, or the Received write was followed by an Error write
with a broadcast-failure response, or by a Broadcast write with a
success or internal-error response. -/
theorem payFee_shape (env : Env) (t : Ticket) (r : PayFeeRequest) :
    (writesOf (payFee env t r).trace = [] ∧ auditsOf (payFee env t r).trace = []) ∨
    (∃ t1, writesOf (payFee env t r).trace = [t1] ∧
      t1.feeTxStatus = FeeStatus.feeReceieved ∧
      ((payFee env t r).resp = Resp.success ∨
        (payFee env t r).resp = Resp.errResp ErrCode.errInternalError none)) ∨
    (∃ t1 t2, writesOf (payFee env t r).trace = [t1, t2] ∧
      t1.feeTxStatus = FeeStatus.feeReceieved ∧ t2.feeTxStatus = FeeStatus.feeError ∧
      ((payFee env t r).resp =
          Resp.errResp ErrCode.errCannotBroadcastFeeUnknownOutputs none ∨
        (payFee env t r).resp = Resp.errResp ErrCode.errCannotBroadcastFee none)) ∨
    (∃ t1 t2, writesOf (payFee env t r).trace = [t1, t2] ∧
      t1.feeTxStatus = FeeStatus.feeReceieved ∧ t2.feeTxStatus = FeeStatus.feeBroadcast ∧
      ((payFee env t r).resp = Resp.success ∨
        (payFee env t r).resp = Resp.errResp ErrCode.errInternalError none)) := by
  cases hd : env.dcrdErr with
  | true => exact Or.inl (by simp [payFee, writesOf, auditsOf, hd])
  | false =>
  cases hk : env.knownTicket with
  | false => exact Or.inl (by simp [payFee, writesOf, auditsOf, hd, hk])
  | true =>
  cases hb : env.bindErr with
  | true => exact Or.inl (by simp [payFee, writesOf, auditsOf, hd, hk, hb])
  | false =>
  by_cases hst : t.feeTxStatus = FeeStatus.feeReceieved ∨
      t.feeTxStatus = FeeStatus.feeBroadcast ∨ t.feeTxStatus = FeeStatus.feeConfirmed
  · exact Or.inl (by simp [payFee, writesOf, auditsOf, hd, hk, hb, hst])
  cases hraw : env.getRawTransaction with
  | error e => exact Or.inl (by simp [payFee, writesOf, auditsOf, hd, hk, hb, hst, hraw])
  | ok raw =>
  cases hvote : env.canTicketVote with
  | error e =>
    exact Or.inl (by simp [payFee, writesOf, auditsOf, hd, hk, hb, hst, hraw, hvote])
  | ok canVote =>
  cases canVote with
  | false =>
    exact Or.inl (by simp [payFee, writesOf, auditsOf, hd, hk, hb, hst, hraw, hvote])
  | true =>
  cases hexp : env.feeExpired with
  | true =>
    exact Or.inl (by simp [payFee, writesOf, auditsOf, hd, hk, hb, hst, hraw, hvote, hexp])
  | false =>
  cases hwif : env.decodeWIF with
  | none =>
    exact Or.inl
      (by simp [payFee, writesOf, auditsOf, hd, hk, hb, hst, hraw, hvote, hexp, hwif])
  | some w =>
  cases hft : env.decodeTransaction r.feeTx with
  | none =>
    exact Or.inl
      (by simp [payFee, writesOf, auditsOf, hd, hk, hb, hst, hraw, hvote, hexp, hwif, hft])
  | some ftx =>
  cases hsan : env.checkTransactionSanity ftx with
  | false =>
    exact Or.inl (by simp [payFee, writesOf, auditsOf, hd, hk, hb, hst, hraw, hvote, hexp,
      hwif, hft, hsan])
  | true =>
  cases haddr : env.feeAddressPayment with
  | none =>
    exact Or.inl (by simp [payFee, writesOf, auditsOf, hd, hk, hb, hst, hraw, hvote, hexp,
      hwif, hft, hsan, haddr])
  | some feePS =>
  by_cases hz : scanFeePaid ftx.txOut feePS.scriptVersion feePS.script = 0
  · exact Or.inl (by simp [payFee, writesOf, auditsOf, hd, hk, hb, hst, hraw, hvote, hexp,
      hwif, hft, hsan, haddr, hz])
  by_cases hlt : scanFeePaid ftx.txOut feePS.scriptVersion feePS.script < t.feeAmount
  · exact Or.inl (by simp [payFee, writesOf, auditsOf, hd, hk, hb, hst, hraw, hvote, hexp,
      hwif, hft, hsan, haddr, hz, hlt])
  cases hvr : env.votingRightsScript with
  | none =>
    exact Or.inl (by simp [payFee, writesOf, auditsOf, hd, hk, hb, hst, hraw, hvote, hexp,
      hwif, hft, hsan, haddr, hz, hlt, hvr])
  | some wps =>
  cases httx : env.decodeTransaction raw.hex with
  | none =>
    exact Or.inl (by simp [payFee, writesOf, auditsOf, hd, hk, hb, hst, hraw, hvote, hexp,
      hwif, hft, hsan, haddr, hz, hlt, hvr, httx])
  | some ttx =>
  by_cases hmm : (txOutZero ttx).version ≠ wps.scriptVersion ∨
      (txOutZero ttx).pkScript ≠ wps.script
  · exact Or.inl (by simp [payFee, writesOf, auditsOf, hd, hk, hb, hst, hraw, hvote, hexp,
      hwif, hft, hsan, haddr, hz, hlt, hvr, httx, hmm])
  cases hupd1 : env.updateTicketOk1 with
  | false =>
    refine Or.inr (Or.inl ?_)
    simp [payFee, writesOf, hd, hk, hb, hst, hraw, hvote, hexp, hwif, hft, hsan, haddr,
      hz, hlt, hvr, httx, hmm, hupd1]
  | true =>
  cases hconf : t.confirmed with
  | false =>
    refine Or.inr (Or.inl ?_)
    simp [payFee, writesOf, hd, hk, hb, hst, hraw, hvote, hexp, hwif, hft, hsan, haddr,
      hz, hlt, hvr, httx, hmm, hupd1, hconf]
  | true =>
  cases hsend : env.sendRawTransaction with
  | error emsg =>
    refine Or.inr (Or.inr (Or.inl ?_))
    by_cases hsc : stringContains emsg errUnknownOutputs = true
    · simp [payFee, writesOf, hd, hk, hb, hst, hraw, hvote, hexp, hwif, hft, hsan, haddr,
        hz, hlt, hvr, httx, hmm, hupd1, hconf, hsend, hsc]
      exact ⟨_, _, ⟨rfl, rfl⟩, rfl, rfl⟩
    · simp [payFee, writesOf, hd, hk, hb, hst, hraw, hvote, hexp, hwif, hft, hsan, haddr,
        hz, hlt, hvr, httx, hmm, hupd1, hconf, hsend, hsc]
      exact ⟨_, _, ⟨rfl, rfl⟩, rfl, rfl⟩
  | ok u =>
  cases hupd2 : env.updateTicketOk2 with
  | false =>
    refine Or.inr (Or.inr (Or.inr ?_))
    simp [payFee, writesOf, hd, hk, hb, hst, hraw, hvote, hexp, hwif, hft, hsan, haddr,
      hz, hlt, hvr, httx, hmm, hupd1, hconf, hsend, hupd2]
    exact ⟨_, _, ⟨rfl, rfl⟩, rfl, rfl⟩
  | true =>
    refine Or.inr (Or.inr (Or.inr ?_))
    simp [payFee, writesOf, hd, hk, hb, hst, hraw, hvote, hexp, hwif, hft, hsan, haddr,
      hz, hlt, hvr, httx, hmm, hupd1, hconf, hsend, hupd2]
    exact ⟨_, _, ⟨rfl, rfl⟩, rfl, rfl⟩

/-- Claim C7: whenever payFee answers with one of the client-input error
codes (unknown ticket, already paid, cannot vote, fee expired, invalid
private key, invalid fee transaction including the missing fee output,
fee too small), the trace contains no ticket update and no vote-change
record: the ledger is left completely unchanged. -/
theorem payFee_client_error_no_ledger_write (env : Env) (t : Ticket) (r : PayFeeRequest)
    (c : ErrCode)
    (hcode : respCode (payFee env t r).resp = some c)
    (hclient : isClientInputCode c = true) :
    writesOf (payFee env t r).trace = [] ∧ auditsOf (payFee env t r).trace = [] := by
  rcases payFee_shape env t r with h | ⟨t1, _, _, hr⟩ | ⟨t1, t2, _, _, _, hr⟩ |
    ⟨t1, t2, _, _, _, hr⟩
  · exact h
  all_goals rcases hr with hr | hr <;> rw [hr] at hcode <;>
    simp only [respCode, Option.some.injEq] at hcode
  all_goals first
    | exact absurd hcode (by simp)
    | (subst hcode; exact absurd hclient (by simp [isClientInputCode]))

/-- Witness for claim C7 at a concrete expired-fee rejection. -/
theorem payFee_client_error_no_ledger_write_witness :
    writesOf (payFee { envA with feeExpired := true } ticketA requestA).trace = [] ∧
    auditsOf (payFee { envA with feeExpired := true } ticketA requestA).trace = [] :=
  payFee_client_error_no_ledger_write { envA with feeExpired := true } ticketA requestA
    ErrCode.errFeeExpired (by decide) (by decide)

/-- Claim C4: starting from a ticket whose status is not Received,
Broadcast or Confirmed, the tickets payFee passes to the ledger follow
the allowed chain: either no write, or a single write with status
Received, or a write with status Received followed by one with status
Broadcast or Error; no other status is ever written and no write moves
the status backward. -/
theorem payFee_writes_follow_chain (env : Env) (t : Ticket) (r : PayFeeRequest)
    (_hstatus : ¬(t.feeTxStatus = FeeStatus.feeReceieved ∨
      t.feeTxStatus = FeeStatus.feeBroadcast ∨ t.feeTxStatus = FeeStatus.feeConfirmed)) :
    writesOf (payFee env t r).trace = [] ∨
    (∃ t1, writesOf (payFee env t r).trace = [t1] ∧
      t1.feeTxStatus = FeeStatus.feeReceieved) ∨
    (∃ t1 t2, writesOf (payFee env t r).trace = [t1, t2] ∧
      t1.feeTxStatus = FeeStatus.feeReceieved ∧
      (t2.feeTxStatus = FeeStatus.feeBroadcast ∨ t2.feeTxStatus = FeeStatus.feeError)) := by
  rcases payFee_shape env t r with h | ⟨t1, hw, hs, _⟩ | ⟨t1, t2, hw, hs1, hs2, _⟩ |
    ⟨t1, t2, hw, hs1, hs2, _⟩
  · exact Or.inl h.1
  · exact Or.inr (Or.inl ⟨t1, hw, hs⟩)
  · exact Or.inr (Or.inr ⟨t1, t2, hw, hs1, Or.inr hs2⟩)
  · exact Or.inr (Or.inr ⟨t1, t2, hw, hs1, Or.inl hs2⟩)

/-- Witness for claim C4 at the concrete successful request, whose trace
writes Received and then Broadcast. -/
theorem payFee_writes_follow_chain_witness :
    writesOf (payFee envA ticketA requestA).trace = [] ∨
    (∃ t1, writesOf (payFee envA ticketA requestA).trace = [t1] ∧
      t1.feeTxStatus = FeeStatus.feeReceieved) ∨
    (∃ t1 t2, writesOf (payFee envA ticketA requestA).trace = [t1, t2] ∧
      t1.feeTxStatus = FeeStatus.feeReceieved ∧
      (t2.feeTxStatus = FeeStatus.feeBroadcast ∨ t2.feeTxStatus = FeeStatus.feeError)) :=
  payFee_writes_follow_chain envA ticketA requestA (by decide)

end Vspd
